import Mathlib

/-!
Verification of the authentication core of `api.ashes.live`
(`src/api/views/auth.py`): the `log_in` and `reset_password` operations.

Emails and passwords are modelled as lists of character codes (`List Nat`).
External collaborators (password verification, token issuance, notification
dispatch, settings) are parameters of the operations, matching the spec's
collaborator interfaces.  The AttributeError raised by Python when
`user.is_banned` is read with `user = None` is modelled as `Except.error`.
-/

namespace Ashes

/-- ASCII lowercasing of a single character code, as used by `str.lower`
on the ASCII range. -/
def lowerCode (c : Nat) : Nat :=
  if 65 ≤ c ∧ c ≤ 90 then c + 32 else c

/-- `email.lower()` : normalize an email by lowercasing every character. -/
def lowerEmail (e : List Nat) : List Nat :=
  e.map lowerCode

/-- The `User` model fields used by `auth.py`. -/
structure User where
  email : List Nat
  password : List Nat
  is_banned : Bool
  reset_uuid : Option Nat
deriving DecidableEq, Repr

/-- The persistence collaborator's state: the stored user records. -/
structure Store where
  users : List User
deriving DecidableEq, Repr

/-- `session.query(User).filter(User.email == email).first()` : the first
stored user whose email equals the given (normalized) email. -/
def findByEmail (st : Store) (e : List Nat) : Option User :=
  st.users.find? (fun u => u.email == e)

/-- Outcome of `log_in`: the returned token payload, or the raised
`CredentialsException` / `BannedUserException`. -/
inductive LoginResult where
  | success (accessToken : Nat) (tokenType : String)
  | invalidCredentials
  | accountBanned
deriving DecidableEq, Repr

/-- `log_in` from `auth.py`, parameterized by the external collaborators
`verify_password` and `access_token_for_user`. -/
def log_in (verify : List Nat → List Nat → Bool) (issueToken : User → Nat)
    (st : Store) (username password : List Nat) : LoginResult :=
  let email := lowerEmail username
  match findByEmail st email with
  | none => .invalidCredentials
  | some user =>
    if verify password user.password = false then .invalidCredentials
    else if user.is_banned then .accountBanned
    else .success (issueToken user) "bearer"

/-- An unhandled Python exception (outside the endpoint's failure
taxonomy). -/
inductive PyError where
  | attributeErrorNoneType
deriving DecidableEq, Repr

/-- Outcome of `reset_password`: the success detail message, or one of the
raised API exceptions. -/
inductive ResetResult where
  | success
  | accountBanned
  | accountNotFound
  | notificationFailure
deriving DecidableEq, Repr

/-- The fields of `api.environment.settings` used by `reset_password`. -/
structure Settings where
  debug : Bool
  sendgrid_reset_template : Nat
deriving DecidableEq, Repr

/-- Replace the first stored user whose email equals `e` by `u`
(the effect of mutating the fetched record and committing). -/
def setUser : List User → List Nat → User → List User
  | [], _, _ => []
  | v :: rest, e, u =>
    if v.email == e then u :: rest else v :: setUser rest e u

/-- `session.commit()` after mutating the user fetched by email `e`. -/
def commitUser (st : Store) (e : List Nat) (u : User) : Store :=
  ⟨setUser st.users e u⟩

/-- A debug log line: the normalized email and the reset token it reveals. -/
abbrev LogEntry := List Nat × Nat

/-- `reset_password` from `auth.py`, parameterized by the notification
dispatcher `send_message` and the settings.  `freshUuid` is the value drawn
from `uuid.uuid4()`.  Returns the outcome, the resulting store and the
emitted log lines; reading `user.is_banned` when the lookup returned no
user raises `AttributeError`, modelled as `Except.error`. -/
def reset_password (send : List Nat → Nat → Nat → Bool) (settings : Settings)
    (st : Store) (emailIn : List Nat) (freshUuid : Nat) :
    Except PyError (ResetResult × Store × List LogEntry) :=
  let email := lowerEmail emailIn
  match findByEmail st email with
  | none => .error .attributeErrorNoneType
  | some user =>
    if user.is_banned then .ok (.accountBanned, st, [])
    else if (some user).isNone then .ok (.accountNotFound, st, [])
    else
      let user' : User := { user with reset_uuid := some freshUuid }
      let st' := commitUser st email user'
      if send user'.email settings.sendgrid_reset_template freshUuid = false then
        let log : List LogEntry := if settings.debug then [(email, freshUuid)] else []
        .ok (.notificationFailure, st', log)
      else
        .ok (.success, st', [])

/-- The user-facing outcome of a reset run (`none` when an unhandled
exception escaped). -/
def resetOutcome : Except PyError (ResetResult × Store × List LogEntry) → Option ResetResult
  | .error _ => none
  | .ok (r, _, _) => some r

/-- The store after a reset run (unchanged when an unhandled exception
escaped before any commit). -/
def storeAfter (fallback : Store) : Except PyError (ResetResult × Store × List LogEntry) → Store
  | .error _ => fallback
  | .ok (_, s, _) => s

/-- The log lines emitted by a reset run. -/
def resetLog : Except PyError (ResetResult × Store × List LogEntry) → List LogEntry
  | .error _ => []
  | .ok (_, _, l) => l

lemma lowerCode_idem (c : Nat) : lowerCode (lowerCode c) = lowerCode c := by
  by_cases h : 65 ≤ c ∧ c ≤ 90
  · have h1 : lowerCode c = c + 32 := by unfold lowerCode; rw [if_pos h]
    have h2 : lowerCode (c + 32) = c + 32 := by
      unfold lowerCode
      rw [if_neg (by omega : ¬ (65 ≤ c + 32 ∧ c + 32 ≤ 90))]
    rw [h1, h2]
  · have h1 : lowerCode c = c := by unfold lowerCode; rw [if_neg h]
    rw [h1]
    exact h1

lemma lowerEmail_idem (e : List Nat) : lowerEmail (lowerEmail e) = lowerEmail e := by
  unfold lowerEmail
  rw [List.map_map]
  apply List.map_congr_left
  intro c _
  exact lowerCode_idem c

lemma find?_setUser (l : List User) (e : List Nat) (u w : User)
    (hw : l.find? (fun v => v.email == e) = some w)
    (hu : (u.email == e) = true) :
    (setUser l e u).find? (fun v => v.email == e) = some u := by
  induction l with
  | nil => simp [List.find?] at hw
  | cons v rest ih =>
    by_cases h : (v.email == e) = true
    · simp only [setUser, if_pos h]
      exact List.find?_cons_of_pos _ hu
    · rw [List.find?_cons_of_neg _ (by simpa using h)] at hw
      simp only [setUser, if_neg h]
      rw [List.find?_cons_of_neg _ (by simpa using h)]
      exact ih hw

/-- Reset run on an email with no matching user: reading `user.is_banned`
on `None` raises `AttributeError`. -/
lemma reset_password_missing (send : List Nat → Nat → Nat → Bool)
    (settings : Settings) (st : Store) (e : List Nat) (t : Nat)
    (h : findByEmail st (lowerEmail e) = none) :
    reset_password send settings st e t = Except.error PyError.attributeErrorNoneType := by
  simp [reset_password, h]

/-- Reset run on a banned user fails with `BannedUserException` and leaves
the store unchanged. -/
lemma reset_password_of_banned (send : List Nat → Nat → Nat → Bool)
    (settings : Settings) (st : Store) (e : List Nat) (t : Nat) (u : User)
    (h : findByEmail st (lowerEmail e) = some u) (hb : u.is_banned = true) :
    reset_password send settings st e t = Except.ok (ResetResult.accountBanned, st, []) := by
  simp [reset_password, h, hb]

/-- Reset run on a non-banned user with accepted dispatch: success, token
committed, no log lines. -/
lemma reset_password_send_true (send : List Nat → Nat → Nat → Bool)
    (settings : Settings) (st : Store) (e : List Nat) (t : Nat) (u : User)
    (h : findByEmail st (lowerEmail e) = some u) (hb : u.is_banned = false)
    (hs : send u.email settings.sendgrid_reset_template t = true) :
    reset_password send settings st e t =
      Except.ok (ResetResult.success,
        commitUser st (lowerEmail e) { u with reset_uuid := some t }, []) := by
  simp [reset_password, h, hb, hs]

/-- Reset run on a non-banned user with rejected dispatch: notification
failure, token still committed, debug-gated log line. -/
lemma reset_password_send_false (send : List Nat → Nat → Nat → Bool)
    (settings : Settings) (st : Store) (e : List Nat) (t : Nat) (u : User)
    (h : findByEmail st (lowerEmail e) = some u) (hb : u.is_banned = false)
    (hs : send u.email settings.sendgrid_reset_template t = false) :
    reset_password send settings st e t =
      Except.ok (ResetResult.notificationFailure,
        commitUser st (lowerEmail e) { u with reset_uuid := some t },
        if settings.debug then [(lowerEmail e, t)] else []) := by
  simp [reset_password, h, hb, hs]

/-! Concrete demo data used by witnesses and counterexamples. -/

def aliceEmail : List Nat := [97, 108]

def hashA : List Nat := [104, 49]

def alice : User := ⟨aliceEmail, hashA, false, none⟩

def brunoEmail : List Nat := [98, 114]

def bruno : User := ⟨brunoEmail, hashA, true, none⟩

def demoStore : Store := ⟨[alice, bruno]⟩

def eqVerify : List Nat → List Nat → Bool := fun p h => p == h

def constIssue : User → Nat := fun _ => 42

def sendOk : List Nat → Nat → Nat → Bool := fun _ _ _ => true

def sendNo : List Nat → Nat → Nat → Bool := fun _ _ _ => false

def cfgDebugOff : Settings := ⟨false, 7⟩

def cfgDebugOn : Settings := ⟨true, 7⟩

/-- C1: for every submitted email matching no stored Identity, `log_in`
returns `InvalidCredentials` — the same outcome as a wrong secret, never a
distinguishable "not found" signal. -/
theorem C1_login_unknown_email_invalid_credentials
    (verify : List Nat → List Nat → Bool) (issueToken : User → Nat)
    (st : Store) (e p : List Nat)
    (h : findByEmail st (lowerEmail e) = none) :
    log_in verify issueToken st e p = LoginResult.invalidCredentials := by
  simp [log_in, h]

/-- C1 witness: the email with codes `[122, 122]` matches no user of the
demo store, and `log_in` on it returns `InvalidCredentials`. -/
theorem C1_witness :
    findByEmail demoStore (lowerEmail [122, 122]) = none ∧
    log_in eqVerify constIssue demoStore [122, 122] hashA = LoginResult.invalidCredentials :=
  ⟨by decide,
   C1_login_unknown_email_invalid_credentials eqVerify constIssue demoStore
     [122, 122] hashA (by decide)⟩

/-- C3: the claim says RequestReset on an unknown email returns
`AccountNotFound`; the code instead reads `user.is_banned` on `None` and
crashes with `AttributeError` (evaluated here at the failing input: an
empty store and email `[110]`). -/
theorem C3_reset_unknown_email_crashes :
    reset_password sendOk cfgDebugOff (Store.mk []) [110] 5 =
      Except.error PyError.attributeErrorNoneType := rfl

/-- C10: in `reset_password` the ban check precedes the existence check:
a lookup miss raises `AttributeError` on `None` (an error outside the
failure taxonomy), and no run can return `AccountNotFound` — that branch
is unreachable. -/
theorem C10_ban_check_before_existence_check
    (send : List Nat → Nat → Nat → Bool) (settings : Settings)
    (st : Store) (e : List Nat) (t : Nat) :
    (findByEmail st (lowerEmail e) = none →
      reset_password send settings st e t = Except.error PyError.attributeErrorNoneType) ∧
    (∀ res : ResetResult × Store × List LogEntry,
      reset_password send settings st e t = Except.ok res →
      res.1 ≠ ResetResult.accountNotFound) := by
  constructor
  · intro h
    exact reset_password_missing send settings st e t h
  · intro res hres
    rcases hfind : findByEmail st (lowerEmail e) with _ | u
    · rw [reset_password_missing send settings st e t hfind] at hres
      exact Except.noConfusion hres
    · rcases hb : u.is_banned with _ | _
      · rcases hs : send u.email settings.sendgrid_reset_template t with _ | _
        · rw [reset_password_send_false send settings st e t u hfind hb hs] at hres
          cases hres
          simp
        · rw [reset_password_send_true send settings st e t u hfind hb hs] at hres
          cases hres
          simp
      · rw [reset_password_of_banned send settings st e t u hfind hb] at hres
        cases hres
        simp

/-- C10 witness: on the empty store the run errors out, and a run that
does return a value (alice's reset) does not return `AccountNotFound`. -/
theorem C10_witness :
    reset_password sendOk cfgDebugOff (Store.mk []) [120] 9 =
      Except.error PyError.attributeErrorNoneType ∧
    (ResetResult.success,
      commitUser demoStore (lowerEmail aliceEmail) { alice with reset_uuid := some 9 },
      ([] : List LogEntry)).1 ≠ ResetResult.accountNotFound :=
  ⟨(C10_ban_check_before_existence_check sendOk cfgDebugOff (Store.mk []) [120] 9).1 (by decide),
   (C10_ban_check_before_existence_check sendOk cfgDebugOff demoStore aliceEmail 9).2
     (ResetResult.success,
      commitUser demoStore (lowerEmail aliceEmail) { alice with reset_uuid := some 9 },
      ([] : List LogEntry)) rfl⟩

/-- C2 counterexample: bruno is a stored banned identity, yet `log_in`
with a non-verifying secret returns `InvalidCredentials`, not
`AccountBanned` — the claim "Login returns AccountBanned regardless of
secret correctness" is false on the code. -/
theorem C2_counterexample :
    findByEmail demoStore (lowerEmail brunoEmail) = some bruno ∧
    bruno.is_banned = true ∧
    eqVerify [0] bruno.password = false ∧
    log_in eqVerify constIssue demoStore brunoEmail [0] = LoginResult.invalidCredentials ∧
    LoginResult.invalidCredentials ≠ LoginResult.accountBanned := by decide

/-- C2 (amended): for a banned identity, `log_in` returns `AccountBanned`
when the secret verifies and `InvalidCredentials` when it does not, while
`reset_password` returns `AccountBanned` regardless of the secret. -/
theorem C2_banned_identity_outcomes
    (verify : List Nat → List Nat → Bool) (issueToken : User → Nat)
    (send : List Nat → Nat → Nat → Bool) (settings : Settings)
    (st : Store) (e p : List Nat) (t : Nat) (u : User)
    (hfind : findByEmail st (lowerEmail e) = some u)
    (hb : u.is_banned = true) :
    (verify p u.password = true →
      log_in verify issueToken st e p = LoginResult.accountBanned) ∧
    (verify p u.password = false →
      log_in verify issueToken st e p = LoginResult.invalidCredentials) ∧
    reset_password send settings st e t = Except.ok (ResetResult.accountBanned, st, []) := by
  refine ⟨?_, ?_, reset_password_of_banned send settings st e t u hfind hb⟩
  · intro hv
    simp [log_in, hfind, hv, hb]
  · intro hv
    simp [log_in, hfind, hv]

/-- C2 witness: banned bruno with the correct secret gets `AccountBanned`,
with a wrong secret gets `InvalidCredentials`, and his reset request gets
`AccountBanned`. -/
theorem C2_witness :
    log_in eqVerify constIssue demoStore brunoEmail hashA = LoginResult.accountBanned ∧
    log_in eqVerify constIssue demoStore brunoEmail [0] = LoginResult.invalidCredentials ∧
    reset_password sendOk cfgDebugOff demoStore brunoEmail 5 =
      Except.ok (ResetResult.accountBanned, demoStore, []) :=
  ⟨(C2_banned_identity_outcomes eqVerify constIssue sendOk cfgDebugOff demoStore
      brunoEmail hashA 5 bruno (by decide) (by decide)).1 (by decide),
   ((C2_banned_identity_outcomes eqVerify constIssue sendOk cfgDebugOff demoStore
      brunoEmail [0] 5 bruno (by decide) (by decide)).2).1 (by decide),
   ((C2_banned_identity_outcomes eqVerify constIssue sendOk cfgDebugOff demoStore
      brunoEmail [0] 5 bruno (by decide) (by decide)).2).2⟩

/-- C5: both operations lowercase the submitted email before the lookup,
so each operation's outcome on an email equals its outcome on the
lowercased email. -/
theorem C5_lowercase_normalization_invariance
    (verify : List Nat → List Nat → Bool) (issueToken : User → Nat)
    (send : List Nat → Nat → Nat → Bool) (settings : Settings)
    (st : Store) (e p : List Nat) (t : Nat) :
    log_in verify issueToken st e p = log_in verify issueToken st (lowerEmail e) p ∧
    reset_password send settings st e t = reset_password send settings st (lowerEmail e) t := by
  constructor
  · simp only [log_in, lowerEmail_idem]
  · simp only [reset_password, lowerEmail_idem]

/-- C8: for an existing non-banned identity, a verifying secret yields
`Success` with the issued token and token type "bearer", and a
non-verifying secret yields `InvalidCredentials`. -/
theorem C8_login_success_and_mismatch
    (verify : List Nat → List Nat → Bool) (issueToken : User → Nat)
    (st : Store) (e p : List Nat) (u : User)
    (hfind : findByEmail st (lowerEmail e) = some u)
    (hb : u.is_banned = false) :
    (verify p u.password = true →
      log_in verify issueToken st e p = LoginResult.success (issueToken u) "bearer") ∧
    (verify p u.password = false →
      log_in verify issueToken st e p = LoginResult.invalidCredentials) := by
  constructor
  · intro hv
    simp [log_in, hfind, hv, hb]
  · intro hv
    simp [log_in, hfind, hv]

/-- C8 witness: alice with the correct secret logs in with token 42 and
token type "bearer"; with a wrong secret she gets `InvalidCredentials`. -/
theorem C8_witness :
    log_in eqVerify constIssue demoStore aliceEmail hashA =
      LoginResult.success 42 "bearer" ∧
    log_in eqVerify constIssue demoStore aliceEmail [0] = LoginResult.invalidCredentials :=
  ⟨(C8_login_success_and_mismatch eqVerify constIssue demoStore aliceEmail hashA alice
      (by decide) (by decide)).1 (by decide),
   (C8_login_success_and_mismatch eqVerify constIssue demoStore aliceEmail [0] alice
      (by decide) (by decide)).2 (by decide)⟩

/-- C9: `log_in` checks the credential before the ban flag: a banned
identity with a non-verifying secret gets `InvalidCredentials`, and an
`AccountBanned` outcome implies the secret verified. -/
theorem C9_credential_check_precedes_ban_check
    (verify : List Nat → List Nat → Bool) (issueToken : User → Nat)
    (st : Store) (e p : List Nat) (u : User)
    (hfind : findByEmail st (lowerEmail e) = some u)
    (hb : u.is_banned = true) :
    (verify p u.password = false →
      log_in verify issueToken st e p = LoginResult.invalidCredentials) ∧
    (log_in verify issueToken st e p = LoginResult.accountBanned →
      verify p u.password = true) := by
  constructor
  · intro hv
    simp [log_in, hfind, hv]
  · intro hout
    rcases hvv : verify p u.password with _ | _
    · have hinv : log_in verify issueToken st e p = LoginResult.invalidCredentials := by
        simp [log_in, hfind, hvv]
      rw [hinv] at hout
      exact LoginResult.noConfusion hout
    · rfl

/-- C9 witness: banned bruno with a wrong secret gets
`InvalidCredentials`; since his login with the stored secret comes out
`AccountBanned`, the theorem recovers that the secret verified. -/
theorem C9_witness :
    log_in eqVerify constIssue demoStore brunoEmail [0] = LoginResult.invalidCredentials ∧
    eqVerify hashA bruno.password = true :=
  ⟨(C9_credential_check_precedes_ban_check eqVerify constIssue demoStore brunoEmail [0]
      bruno (by decide) (by decide)).1 (by decide),
   (C9_credential_check_precedes_ban_check eqVerify constIssue demoStore brunoEmail hashA
      bruno (by decide) (by decide)).2 (by decide)⟩

/-- Committing a user whose email matches the looked-up email makes the
subsequent lookup return exactly that user. -/
lemma findByEmail_commitUser (st : Store) (e : List Nat) (u w : User)
    (hw : findByEmail st e = some w) (hu : (u.email == e) = true) :
    findByEmail (commitUser st e u) e = some u :=
  find?_setUser st.users e u w hw hu

/-- C4: with an existing non-banned identity and a dispatcher that rejects
the send, `reset_password` surfaces `NotificationFailure` but the fresh
token is already persisted: the subsequent lookup shows a non-empty reset
token field. -/
theorem C4_dispatch_failure_token_persisted
    (send : List Nat → Nat → Nat → Bool) (settings : Settings)
    (st : Store) (e : List Nat) (t : Nat) (u : User)
    (hfind : findByEmail st (lowerEmail e) = some u)
    (hb : u.is_banned = false)
    (hs : ∀ r tpl tok, send r tpl tok = false) :
    resetOutcome (reset_password send settings st e t) =
      some ResetResult.notificationFailure ∧
    ∃ u2, findByEmail (storeAfter st (reset_password send settings st e t))
        (lowerEmail e) = some u2 ∧
      u2.reset_uuid = some t ∧ u2.reset_uuid ≠ none := by
  have hfind' : st.users.find? (fun v => v.email == lowerEmail e) = some u := hfind
  have hmem : (u.email == lowerEmail e) = true := by simpa using List.find?_some hfind'
  have hrun := reset_password_send_false send settings st e t u hfind hb (hs _ _ _)
  constructor
  · rw [hrun]
    rfl
  · refine ⟨{ u with reset_uuid := some t }, ?_, rfl, by simp⟩
    rw [hrun]
    exact findByEmail_commitUser st (lowerEmail e) { u with reset_uuid := some t } u hfind hmem

/-- C4 witness: alice's reset with a rejecting dispatcher yields
`NotificationFailure`, yet her stored record afterwards carries the fresh
token 9. -/
theorem C4_witness :
    resetOutcome (reset_password sendNo cfgDebugOff demoStore aliceEmail 9) =
      some ResetResult.notificationFailure ∧
    ∃ u2, findByEmail (storeAfter demoStore (reset_password sendNo cfgDebugOff demoStore aliceEmail 9))
        (lowerEmail aliceEmail) = some u2 ∧
      u2.reset_uuid = some 9 ∧ u2.reset_uuid ≠ none :=
  C4_dispatch_failure_token_persisted sendNo cfgDebugOff demoStore aliceEmail 9 alice
    (by decide) (by decide) (fun _ _ _ => rfl)

/-- C6: two successive successful resets leave exactly one pending token:
the second one; the first token is no longer the stored pending token. -/
theorem C6_second_reset_supersedes_first
    (send : List Nat → Nat → Nat → Bool) (settings : Settings)
    (st : Store) (e : List Nat) (t1 t2 : Nat) (u : User)
    (hfind : findByEmail st (lowerEmail e) = some u)
    (hb : u.is_banned = false)
    (hs : ∀ r tpl tok, send r tpl tok = true)
    (hne : t1 ≠ t2) :
    resetOutcome (reset_password send settings st e t1) = some ResetResult.success ∧
    resetOutcome (reset_password send settings
      (storeAfter st (reset_password send settings st e t1)) e t2) =
        some ResetResult.success ∧
    ∃ u2,
      findByEmail
        (storeAfter (storeAfter st (reset_password send settings st e t1))
          (reset_password send settings
            (storeAfter st (reset_password send settings st e t1)) e t2))
        (lowerEmail e) = some u2 ∧
      u2.reset_uuid = some t2 ∧ u2.reset_uuid ≠ some t1 := by
  have hfind' : st.users.find? (fun v => v.email == lowerEmail e) = some u := hfind
  have hmem : (u.email == lowerEmail e) = true := by simpa using List.find?_some hfind'
  have h1 := reset_password_send_true send settings st e t1 u hfind hb (hs _ _ _)
  have hstep1 : storeAfter st (reset_password send settings st e t1) =
      commitUser st (lowerEmail e) { u with reset_uuid := some t1 } := by
    rw [h1]
    rfl
  have hfind1 : findByEmail (commitUser st (lowerEmail e) { u with reset_uuid := some t1 })
      (lowerEmail e) = some { u with reset_uuid := some t1 } :=
    findByEmail_commitUser st (lowerEmail e) { u with reset_uuid := some t1 } u hfind hmem
  have h2 := reset_password_send_true send settings
    (commitUser st (lowerEmail e) { u with reset_uuid := some t1 }) e t2
    { u with reset_uuid := some t1 } hfind1 hb (hs _ _ _)
  refine ⟨by rw [h1]; rfl, by rw [hstep1, h2]; rfl, ?_⟩
  refine ⟨{ u with reset_uuid := some t2 }, ?_, rfl, ?_⟩
  · rw [hstep1, h2]
    show findByEmail (commitUser (commitUser st (lowerEmail e) { u with reset_uuid := some t1 })
      (lowerEmail e) { u with reset_uuid := some t2 }) (lowerEmail e) = _
    exact findByEmail_commitUser _ (lowerEmail e) { u with reset_uuid := some t2 }
      { u with reset_uuid := some t1 } hfind1 hmem
  · show some t2 ≠ some t1
    intro hcontra
    exact hne (Option.some.inj hcontra).symm

/-- C6 witness: alice's two successive resets with tokens 1 then 2 both
succeed, and afterwards her stored token is 2, not 1. -/
theorem C6_witness :
    resetOutcome (reset_password sendOk cfgDebugOff demoStore aliceEmail 1) =
      some ResetResult.success ∧
    resetOutcome (reset_password sendOk cfgDebugOff
      (storeAfter demoStore (reset_password sendOk cfgDebugOff demoStore aliceEmail 1))
      aliceEmail 2) = some ResetResult.success ∧
    ∃ u2,
      findByEmail
        (storeAfter (storeAfter demoStore (reset_password sendOk cfgDebugOff demoStore aliceEmail 1))
          (reset_password sendOk cfgDebugOff
            (storeAfter demoStore (reset_password sendOk cfgDebugOff demoStore aliceEmail 1))
            aliceEmail 2))
        (lowerEmail aliceEmail) = some u2 ∧
      u2.reset_uuid = some 2 ∧ u2.reset_uuid ≠ some 1 :=
  C6_second_reset_supersedes_first sendOk cfgDebugOff demoStore aliceEmail 1 2 alice
    (by decide) (by decide) (fun _ _ _ => rfl) (by decide)

/-- Every reset run either emits no log lines, or the debug flag is on,
the outcome is `NotificationFailure`, and the single log line carries the
normalized email and the fresh token. -/
lemma resetLog_cases (send : List Nat → Nat → Nat → Bool) (settings : Settings)
    (st : Store) (e : List Nat) (t : Nat) :
    resetLog (reset_password send settings st e t) = [] ∨
    (settings.debug = true ∧
      resetOutcome (reset_password send settings st e t) =
        some ResetResult.notificationFailure ∧
      resetLog (reset_password send settings st e t) = [(lowerEmail e, t)]) := by
  rcases hfind : findByEmail st (lowerEmail e) with _ | u
  · left
    rw [reset_password_missing send settings st e t hfind]
    rfl
  · rcases hb : u.is_banned with _ | _
    · rcases hs : send u.email settings.sendgrid_reset_template t with _ | _
      · rcases hd : settings.debug with _ | _
        · left
          rw [reset_password_send_false send settings st e t u hfind hb hs]
          simp [resetLog, hd]
        · right
          rw [reset_password_send_false send settings st e t u hfind hb hs]
          exact ⟨rfl, rfl, by simp [resetLog, hd]⟩
      · left
        rw [reset_password_send_true send settings st e t u hfind hb hs]
        rfl
    · left
      rw [reset_password_of_banned send settings st e t u hfind hb]
      rfl

/-- C7: a reset token reaches the log channel only when the debug flag is
on and the dispatch failed; with the debug flag off, two runs differing
only in the token value emit identical (empty) log output. -/
theorem C7_debug_gated_token_logging
    (send : List Nat → Nat → Nat → Bool) (settings : Settings)
    (st : Store) (e : List Nat) :
    (∀ t, resetLog (reset_password send settings st e t) ≠ [] →
      settings.debug = true ∧
      resetOutcome (reset_password send settings st e t) =
        some ResetResult.notificationFailure) ∧
    (settings.debug = false → ∀ t1 t2,
      resetLog (reset_password send settings st e t1) =
      resetLog (reset_password send settings st e t2)) := by
  constructor
  · intro t hlog
    rcases resetLog_cases send settings st e t with h | ⟨hd, hout, _⟩
    · exact absurd h hlog
    · exact ⟨hd, hout⟩
  · intro hd t1 t2
    have e1 : resetLog (reset_password send settings st e t1) = [] := by
      rcases resetLog_cases send settings st e t1 with h | ⟨hd1, _, _⟩
      · exact h
      · rw [hd] at hd1
        exact Bool.noConfusion hd1
    have e2 : resetLog (reset_password send settings st e t2) = [] := by
      rcases resetLog_cases send settings st e t2 with h | ⟨hd2, _, _⟩
      · exact h
      · rw [hd] at hd2
        exact Bool.noConfusion hd2
    rw [e1, e2]

/-- C7 witness: with debug on and dispatch failing, a non-empty log forces
debug mode and the `NotificationFailure` outcome; with debug off, the log
output at tokens 3 and 4 coincides. -/
theorem C7_witness :
    (cfgDebugOn.debug = true ∧
      resetOutcome (reset_password sendNo cfgDebugOn demoStore aliceEmail 3) =
        some ResetResult.notificationFailure) ∧
    resetLog (reset_password sendNo cfgDebugOff demoStore aliceEmail 3) =
      resetLog (reset_password sendNo cfgDebugOff demoStore aliceEmail 4) :=
  ⟨(C7_debug_gated_token_logging sendNo cfgDebugOn demoStore aliceEmail).1 3 (by decide),
   (C7_debug_gated_token_logging sendNo cfgDebugOff demoStore aliceEmail).2 rfl 3 4⟩

end Ashes
